import Mathlib

/-!
Shallow embedding of `trading_bot.py` (class `BasicBot`), a thin wrapper
around the Binance futures SDK.  Python exceptions become `Except Err`,
the SDK client becomes a record of responses, mutable bot attributes
(`symbol_info_cache`, `account_info`) become an explicit `BotState`, log
output becomes a `List LogEntry`, and every SDK call made during an
operation is recorded in a `List ClientCall` trace.  Quantities and
prices are modelled as rationals.
-/

set_option allowUnsafeReducibility true

attribute [semireducible] Rat.mul Rat.add Rat.sub Rat.inv

deriving instance DecidableEq for Except

namespace TradingBot

/-- Severity level of a log record emitted through `TradingBotLogger`. -/
inductive LogLevel
  | info
  | warning
  | error
  deriving DecidableEq

/-- One record written to the console/file logger. -/
structure LogEntry where
  level : LogLevel
  msg : String
  deriving DecidableEq

/-- Exceptions that flow through the bot: Python `ValueError`,
`BinanceAPIException` (and other SDK/transport failures), and the
`StopIteration` raised by `next(...)` when a filter is missing. -/
inductive Err
  | valueError (msg : String)
  | apiError (msg : String)
  | stopIteration
  deriving DecidableEq

/-- The message text carried by an exception. -/
def Err.message : Err → String
  | .valueError m => m
  | .apiError m => m
  | .stopIteration => "StopIteration"

/-- One entry of a symbol's `filters` list in the exchange info response. -/
inductive ExchangeFilter
  | lotSize (minQty maxQty stepSize : ℚ)
  | priceFilter (minPrice maxPrice tickSize : ℚ)
  | other (filterType : String)
  deriving DecidableEq

/-- `next(f for f in filters if f['filterType'] == 'LOT_SIZE')`:
the first LOT_SIZE filter, as `(minQty, maxQty, stepSize)`. -/
def findLotSize : List ExchangeFilter → Option (ℚ × ℚ × ℚ)
  | [] => none
  | .lotSize mn mx st :: _ => some (mn, mx, st)
  | _ :: fs => findLotSize fs

/-- `next(f for f in filters if f['filterType'] == 'PRICE_FILTER')`:
the first PRICE_FILTER, as `(minPrice, maxPrice, tickSize)`. -/
def findPriceFilter : List ExchangeFilter → Option (ℚ × ℚ × ℚ)
  | [] => none
  | .priceFilter mn mx tk :: _ => some (mn, mx, tk)
  | _ :: fs => findPriceFilter fs

/-- One symbol entry of the exchange info response. -/
structure SymbolInfo where
  symbol : String
  status : String
  filters : List ExchangeFilter
  deriving DecidableEq

/-- The `futures_exchange_info()` response. -/
structure ExchangeInfo where
  symbols : List SymbolInfo
  deriving DecidableEq

/-- One entry of the account's `assets` list. -/
structure AssetBalance where
  asset : String
  walletBalance : ℚ
  deriving DecidableEq

/-- The `futures_account()` response. -/
structure Account where
  assets : List AssetBalance
  deriving DecidableEq

/-- The `futures_symbol_ticker(...)` response. -/
structure Ticker where
  price : ℚ
  deriving DecidableEq

/-- The keyword arguments passed to `futures_create_order`. -/
structure OrderRequest where
  symbol : String
  side : String
  type : String
  timeInForce : Option String
  quantity : ℚ
  price : Option ℚ
  deriving DecidableEq

/-- An order dictionary returned by the exchange. -/
structure OrderResponse where
  orderId : ℤ
  status : String
  deriving DecidableEq

/-- The SDK client: each method is modelled by the response (or
exception) the exchange would produce for it. -/
structure Client where
  futures_account : Except Err Account
  futures_exchange_info : Except Err ExchangeInfo
  futures_symbol_ticker : String → Except Err Ticker
  futures_create_order : OrderRequest → Except Err OrderResponse
  futures_get_order : String → ℤ → Except Err OrderResponse
  futures_cancel_order : String → ℤ → Except Err OrderResponse
  futures_get_open_orders : Option String → Except Err (List OrderResponse)

/-- A record of one SDK call issued by the bot. -/
inductive ClientCall
  | futuresAccount
  | futuresExchangeInfo
  | futuresSymbolTicker (symbol : String)
  | futuresCreateOrder (req : OrderRequest)
  | futuresGetOrder (symbol : String) (orderId : ℤ)
  | futuresCancelOrder (symbol : String) (orderId : ℤ)
  | futuresGetOpenOrders (symbol : Option String)
  deriving DecidableEq

/-- Whether a recorded call is a `futures_create_order` call. -/
def ClientCall.isCreate : ClientCall → Bool
  | .futuresCreateOrder _ => true
  | _ => false

/-- The mutable attributes of a `BasicBot` instance. -/
structure BotState where
  symbol_info_cache : List (String × SymbolInfo)
  account_info : Option Account
  deriving DecidableEq

/-- `symbol in self.symbol_info_cache` / `self.symbol_info_cache[symbol]`:
first-match lookup in the cache dictionary. -/
def cacheLookup : List (String × SymbolInfo) → String → Option SymbolInfo
  | [], _ => none
  | (k, v) :: rest, s => if k = s then some v else cacheLookup rest s

/-- The outcome of one bot operation: return value or exception, the SDK
calls issued, the log records written, and the bot state afterwards. -/
structure OpResult (α : Type) where
  ret : Except Err α
  calls : List ClientCall
  logs : List LogEntry
  state : BotState

/-- Whether an `Except` value is a success. -/
def exceptOk : Except Err α → Bool
  | .ok _ => true
  | .error _ => false

/-- A log record at error level. -/
def logError (m : String) : LogEntry := ⟨.error, m⟩

/-- A log record at info level. -/
def logInfo (m : String) : LogEntry := ⟨.info, m⟩

/-- A log record at warning level. -/
def logWarning (m : String) : LogEntry := ⟨.warning, m⟩

/-- Whether some record in the log is at error level. -/
def hasErrorLog (logs : List LogEntry) : Bool :=
  logs.any (fun l => l.level == .error)

/-- `BasicBot.get_account_info`: fetch the futures account, store it in
`self.account_info` on success; on failure log and re-raise. -/
def get_account_info (c : Client) (st : BotState) : OpResult Account :=
  match c.futures_account with
  | .ok acc =>
      ⟨.ok acc, [.futuresAccount],
        [logInfo "Account information retrieved successfully"],
        { st with account_info := some acc }⟩
  | .error e =>
      ⟨.error e, [.futuresAccount],
        [logError ((match e with
            | .apiError _ => "API Error getting account info: "
            | _ => "Error getting account info: ") ++ e.message)], st⟩

/-- The `for balance in assets: if balance['asset'] == asset: return
float(balance['walletBalance'])` loop followed by `return 0.0`. -/
def balanceLookup : List AssetBalance → String → ℚ
  | [], _ => 0
  | b :: rest, a => if b.asset = a then b.walletBalance else balanceLookup rest a

/-- `BasicBot.get_balance`: refetch the account if `self.account_info`
is unset, then scan the assets list; any exception is caught, logged,
and turned into a `0.0` return value. -/
def get_balance (c : Client) (st : BotState) (asset : String) : OpResult ℚ :=
  match st.account_info with
  | some acc => ⟨.ok (balanceLookup acc.assets asset), [], [], st⟩
  | none =>
      let r := get_account_info c st
      match r.ret with
      | .ok acc => ⟨.ok (balanceLookup acc.assets asset), r.calls, r.logs, r.state⟩
      | .error e =>
          ⟨.ok 0, r.calls,
            r.logs ++ [logError ("Error getting balance: " ++ e.message)], r.state⟩

/-- `BasicBot.get_symbol_info`: serve from the cache when present;
otherwise fetch exchange info, scan for the symbol, cache and return it,
raising `ValueError` when the symbol is absent; any exception is logged
and re-raised. -/
def get_symbol_info (c : Client) (st : BotState) (symbol : String) : OpResult SymbolInfo :=
  match cacheLookup st.symbol_info_cache symbol with
  | some s => ⟨.ok s, [], [], st⟩
  | none =>
      match c.futures_exchange_info with
      | .error e =>
          ⟨.error e, [.futuresExchangeInfo],
            [logError ("Error getting symbol info: " ++ e.message)], st⟩
      | .ok exInfo =>
          match exInfo.symbols.find? (fun s => s.symbol == symbol) with
          | some s =>
              ⟨.ok s, [.futuresExchangeInfo], [],
                { st with symbol_info_cache := st.symbol_info_cache ++ [(symbol, s)] }⟩
          | none =>
              ⟨.error (.valueError ("Symbol " ++ symbol ++ " not found")),
                [.futuresExchangeInfo],
                [logError ("Error getting symbol info: Symbol " ++ symbol ++ " not found")],
                st⟩

/-- `BasicBot.get_current_price`: fetch the ticker and return its price;
on failure log and re-raise. -/
def get_current_price (c : Client) (st : BotState) (symbol : String) : OpResult ℚ :=
  match c.futures_symbol_ticker symbol with
  | .ok t => ⟨.ok t.price, [.futuresSymbolTicker symbol], [], st⟩
  | .error e =>
      ⟨.error e, [.futuresSymbolTicker symbol],
        [logError ("Error getting price for " ++ symbol ++ ": " ++ e.message)], st⟩

/-- The number of decimal digits after the point in the step size's
decimal representation (`len(str(step_size).split('.')[-1])`): the least
exponent `p ≤ 20` with `step_size * 10 ^ p` integral. -/
def decPrecision (s : ℚ) : ℕ :=
  ((List.range 20).find? (fun p => (s * 10 ^ p).den == 1)).getD 20

/-- Python's banker's rounding to the nearest integer. -/
def roundHalfEven (x : ℚ) : ℤ :=
  let f := ⌊x⌋
  let r := x - f
  if r < 1 / 2 then f
  else if 1 / 2 < r then f + 1
  else if f % 2 = 0 then f else f + 1

/-- Python's `round(quantity, precision)`. -/
def pyRound (x : ℚ) (p : ℕ) : ℚ := (roundHalfEven (x * 10 ^ p) : ℚ) / 10 ^ p

/-- Python's `str.upper()` (ASCII case mapping, character by character). -/
def pyUpper (s : String) : String := ⟨s.data.map Char.toUpper⟩

/-- The exit taken whenever a check inside `validate_order_params`
raises: the outer `except` logs the failure and re-raises. -/
def validationFailed (calls : List ClientCall) (logs : List LogEntry)
    (st : BotState) (e : Err) : OpResult Bool :=
  ⟨.error e, calls, logs ++ [logError ("Order validation failed: " ++ e.message)], st⟩

/-- `BasicBot.validate_order_params`: look up the symbol info, check the
symbol status, the side, the order type, the LOT_SIZE bounds, warn (only)
when the quantity is not representable at the step's precision, and for
LIMIT orders with a truthy price check the PRICE_FILTER bounds. -/
def validate_order_params (c : Client) (st : BotState) (symbol side order_type : String)
    (quantity : ℚ) (price : Option ℚ) : OpResult Bool :=
  let r := get_symbol_info c st symbol
  match r.ret with
  | .error e => validationFailed r.calls r.logs r.state e
  | .ok symbol_info =>
      if symbol_info.status ≠ "TRADING" then
        validationFailed r.calls r.logs r.state
          (.valueError ("Symbol " ++ symbol ++ " is not actively trading"))
      else if pyUpper side ∉ (["BUY", "SELL"] : List String) then
        validationFailed r.calls r.logs r.state
          (.valueError "Side must be BUY or SELL")
      else if pyUpper order_type ∉ (["MARKET", "LIMIT"] : List String) then
        validationFailed r.calls r.logs r.state
          (.valueError "Order type must be MARKET or LIMIT")
      else
        match findLotSize symbol_info.filters with
        | none => validationFailed r.calls r.logs r.state .stopIteration
        | some (min_qty, max_qty, step_size) =>
            if quantity < min_qty ∨ quantity > max_qty then
              validationFailed r.calls r.logs r.state
                (.valueError "Quantity must be between minQty and maxQty")
            else
              let rounded_qty := pyRound quantity (decPrecision step_size)
              let stepLogs :=
                if |quantity - rounded_qty| > 1 / 10 ^ 10 then
                  [logWarning "Quantity adjusted"]
                else []
              match price with
              | none => ⟨.ok true, r.calls, r.logs ++ stepLogs, r.state⟩
              | some p =>
                  if pyUpper order_type = "LIMIT" ∧ p ≠ 0 then
                    match findPriceFilter symbol_info.filters with
                    | none =>
                        validationFailed r.calls (r.logs ++ stepLogs) r.state .stopIteration
                    | some (min_price, max_price, _tick_size) =>
                        if p < min_price ∨ p > max_price then
                          validationFailed r.calls (r.logs ++ stepLogs) r.state
                            (.valueError "Price must be between minPrice and maxPrice")
                        else ⟨.ok true, r.calls, r.logs ++ stepLogs, r.state⟩
                  else ⟨.ok true, r.calls, r.logs ++ stepLogs, r.state⟩

/-- The log message used by `place_market_order` when an exception is
caught: `BinanceAPIException` and other exceptions get distinct text. -/
def placeMarketErrMsg : Err → String
  | .apiError m => "Binance API Error: " ++ m
  | e => "Error placing market order: " ++ e.message

/-- The corresponding log message in `place_limit_order`. -/
def placeLimitErrMsg : Err → String
  | .apiError m => "Binance API Error: " ++ m
  | e => "Error placing limit order: " ++ e.message

/-- `BasicBot.place_market_order`: validate, then submit a MARKET order
with the given symbol, upper-cased side and given quantity, returning
the exchange's response; failures are logged and re-raised. -/
def place_market_order (c : Client) (st : BotState) (symbol side : String)
    (quantity : ℚ) : OpResult OrderResponse :=
  let v := validate_order_params c st symbol side "MARKET" quantity none
  match v.ret with
  | .error e => ⟨.error e, v.calls, v.logs ++ [logError (placeMarketErrMsg e)], v.state⟩
  | .ok _ =>
      let req : OrderRequest := ⟨symbol, pyUpper side, "MARKET", none, quantity, none⟩
      let logs1 := v.logs ++ [logInfo ("Placing MARKET " ++ side ++ " order")]
      match c.futures_create_order req with
      | .ok order =>
          ⟨.ok order, v.calls ++ [.futuresCreateOrder req],
            logs1 ++ [logInfo "Market order placed successfully"], v.state⟩
      | .error e =>
          ⟨.error e, v.calls ++ [.futuresCreateOrder req],
            logs1 ++ [logError (placeMarketErrMsg e)], v.state⟩

/-- `BasicBot.place_limit_order`: validate, then submit a LIMIT GTC
order with the given symbol, upper-cased side, given quantity and given
price, returning the exchange's response; failures are logged and
re-raised. -/
def place_limit_order (c : Client) (st : BotState) (symbol side : String)
    (quantity price : ℚ) : OpResult OrderResponse :=
  let v := validate_order_params c st symbol side "LIMIT" quantity (some price)
  match v.ret with
  | .error e => ⟨.error e, v.calls, v.logs ++ [logError (placeLimitErrMsg e)], v.state⟩
  | .ok _ =>
      let req : OrderRequest := ⟨symbol, pyUpper side, "LIMIT", some "GTC", quantity, some price⟩
      let logs1 := v.logs ++ [logInfo ("Placing LIMIT " ++ side ++ " order")]
      match c.futures_create_order req with
      | .ok order =>
          ⟨.ok order, v.calls ++ [.futuresCreateOrder req],
            logs1 ++ [logInfo "Limit order placed successfully"], v.state⟩
      | .error e =>
          ⟨.error e, v.calls ++ [.futuresCreateOrder req],
            logs1 ++ [logError (placeLimitErrMsg e)], v.state⟩

/-- `BasicBot.get_order_status`: query one order; on failure log and
re-raise. -/
def get_order_status (c : Client) (st : BotState) (symbol : String)
    (order_id : ℤ) : OpResult OrderResponse :=
  match c.futures_get_order symbol order_id with
  | .ok o => ⟨.ok o, [.futuresGetOrder symbol order_id], [], st⟩
  | .error e =>
      ⟨.error e, [.futuresGetOrder symbol order_id],
        [logError ("Error getting order status: " ++ e.message)], st⟩

/-- `BasicBot.cancel_order`: cancel one order; on failure log and
re-raise. -/
def cancel_order (c : Client) (st : BotState) (symbol : String)
    (order_id : ℤ) : OpResult OrderResponse :=
  match c.futures_cancel_order symbol order_id with
  | .ok res =>
      ⟨.ok res, [.futuresCancelOrder symbol order_id],
        [logInfo "Order cancelled successfully"], st⟩
  | .error e =>
      ⟨.error e, [.futuresCancelOrder symbol order_id],
        [logError ("Error cancelling order: " ++ e.message)], st⟩

/-- `BasicBot.get_open_orders`: list open orders; on failure log and
re-raise. -/
def get_open_orders (c : Client) (st : BotState) (symbol : Option String) :
    OpResult (List OrderResponse) :=
  match c.futures_get_open_orders symbol with
  | .ok os => ⟨.ok os, [.futuresGetOpenOrders symbol], [], st⟩
  | .error e =>
      ⟨.error e, [.futuresGetOpenOrders symbol],
        [logError ("Error getting open orders: " ++ e.message)], st⟩

/-! Concrete exchange data used to instantiate the theorems. -/

/-- A LOT_SIZE filter: minQty 0.1, maxQty 100, stepSize 0.1. -/
def sampleLot : ExchangeFilter := .lotSize (1 / 10) 100 (1 / 10)

/-- A PRICE_FILTER: minPrice 0.01, maxPrice 1000000, tickSize 0.01. -/
def samplePF : ExchangeFilter := .priceFilter (1 / 100) 1000000 (1 / 100)

/-- A trading symbol with both filters present. -/
def sampleSymbolInfo : SymbolInfo := ⟨"BTCUSDT", "TRADING", [sampleLot, samplePF]⟩

/-- An exchange info response listing just `sampleSymbolInfo`. -/
def sampleExchangeInfo : ExchangeInfo := ⟨[sampleSymbolInfo]⟩

/-- An account holding 1000 USDT. -/
def sampleAccount : Account := ⟨[⟨"USDT", 1000⟩]⟩

/-- A successful order response. -/
def sampleOrder : OrderResponse := ⟨12345, "NEW"⟩

/-- A client whose every request succeeds with the sample data. -/
def sampleClient : Client :=
  { futures_account := .ok sampleAccount
    futures_exchange_info := .ok sampleExchangeInfo
    futures_symbol_ticker := fun _ => .ok ⟨50000⟩
    futures_create_order := fun _ => .ok sampleOrder
    futures_get_order := fun _ _ => .ok sampleOrder
    futures_cancel_order := fun _ _ => .ok sampleOrder
    futures_get_open_orders := fun _ => .ok [] }

/-- A client whose every request fails with the given exception. -/
def failClient (e : Err) : Client :=
  { futures_account := .error e
    futures_exchange_info := .error e
    futures_symbol_ticker := fun _ => .error e
    futures_create_order := fun _ => .error e
    futures_get_order := fun _ _ => .error e
    futures_cancel_order := fun _ _ => .error e
    futures_get_open_orders := fun _ => .error e }

/-- A freshly initialised bot state: empty cache, no account info. -/
def emptyState : BotState := ⟨[], none⟩

/-- A bot state whose cache already holds `sampleSymbolInfo`. -/
def cachedState : BotState := ⟨[("BTCUSDT", sampleSymbolInfo)], none⟩

/-- A bot state that already holds the sample account info. -/
def accountState : BotState := ⟨[], some sampleAccount⟩

/-- A client that serves the sample exchange data but rejects every
order submission. -/
def createFailClient : Client :=
  { sampleClient with futures_create_order := fun _ => .error (.apiError "rejected") }

/-! Helper lemmas shared by the claim theorems. -/

theorem get_symbol_info_calls_cases (c : Client) (st : BotState) (symbol : String) :
    (get_symbol_info c st symbol).calls = []
      ∨ (get_symbol_info c st symbol).calls = [.futuresExchangeInfo] := by
  unfold get_symbol_info
  split
  · exact Or.inl rfl
  · split
    · exact Or.inr rfl
    · split <;> exact Or.inr rfl

theorem validate_calls_eq (c : Client) (st : BotState) (symbol side order_type : String)
    (quantity : ℚ) (price : Option ℚ) :
    (validate_order_params c st symbol side order_type quantity price).calls
      = (get_symbol_info c st symbol).calls := by
  simp only [validate_order_params, validationFailed]
  cases hr : (get_symbol_info c st symbol).ret with
  | error e => rfl
  | ok info =>
      simp only []
      repeat' split
      all_goals rfl

theorem validate_state_eq (c : Client) (st : BotState) (symbol side order_type : String)
    (quantity : ℚ) (price : Option ℚ) :
    (validate_order_params c st symbol side order_type quantity price).state
      = (get_symbol_info c st symbol).state := by
  simp only [validate_order_params, validationFailed]
  cases hr : (get_symbol_info c st symbol).ret with
  | error e => rfl
  | ok info =>
      simp only []
      repeat' split
      all_goals rfl

theorem cacheLookup_append_some (l l' : List (String × SymbolInfo)) (k : String)
    (v : SymbolInfo) (h : cacheLookup l k = some v) :
    cacheLookup (l ++ l') k = some v := by
  induction l with
  | nil => simp [cacheLookup] at h
  | cons hd tl ih =>
      obtain ⟨a, b⟩ := hd
      by_cases hk : a = k
      · simpa [cacheLookup, hk] using h
      · simp only [cacheLookup, hk, if_neg hk, List.cons_append] at h ⊢
        exact ih h

theorem get_symbol_info_cache_preserved (c : Client) (st : BotState) (symbol k : String)
    (v : SymbolInfo) (h : cacheLookup st.symbol_info_cache k = some v) :
    cacheLookup (get_symbol_info c st symbol).state.symbol_info_cache k = some v := by
  unfold get_symbol_info
  split
  · exact h
  · split
    · exact h
    · split
      · exact cacheLookup_append_some _ _ _ _ h
      · exact h

theorem balanceLookup_eq_zero_of_absent (assets : List AssetBalance) (a : String)
    (h : assets.find? (fun b => b.asset == a) = none) :
    balanceLookup assets a = 0 := by
  induction assets with
  | nil => rfl
  | cons hd tl ih =>
      by_cases hc : hd.asset = a
      · rw [List.find?_cons, show (hd.asset == a) = true from beq_iff_eq.mpr hc] at h
        simp at h
      · rw [List.find?_cons, show (hd.asset == a) = false from beq_eq_false_iff_ne.mpr hc] at h
        simp only [balanceLookup, if_neg hc]
        exact ih h

theorem get_account_info_cache (c : Client) (st : BotState) :
    (get_account_info c st).state.symbol_info_cache = st.symbol_info_cache := by
  unfold get_account_info
  split <;> rfl

theorem get_balance_cache (c : Client) (st : BotState) (asset : String) :
    (get_balance c st asset).state.symbol_info_cache = st.symbol_info_cache := by
  simp only [get_balance]
  repeat' split
  all_goals first | rfl | exact get_account_info_cache c st

theorem get_current_price_state (c : Client) (st : BotState) (symbol : String) :
    (get_current_price c st symbol).state = st := by
  unfold get_current_price
  split <;> rfl

theorem get_order_status_state (c : Client) (st : BotState) (symbol : String) (order_id : ℤ) :
    (get_order_status c st symbol order_id).state = st := by
  unfold get_order_status
  split <;> rfl

theorem cancel_order_state (c : Client) (st : BotState) (symbol : String) (order_id : ℤ) :
    (cancel_order c st symbol order_id).state = st := by
  unfold cancel_order
  split <;> rfl

theorem get_open_orders_state (c : Client) (st : BotState) (symbol : Option String) :
    (get_open_orders c st symbol).state = st := by
  unfold get_open_orders
  split <;> rfl

theorem place_market_state_eq (c : Client) (st : BotState) (symbol side : String)
    (quantity : ℚ) :
    (place_market_order c st symbol side quantity).state
      = (get_symbol_info c st symbol).state := by
  simp only [place_market_order]
  repeat' split
  all_goals exact validate_state_eq c st symbol side "MARKET" quantity none

theorem place_limit_state_eq (c : Client) (st : BotState) (symbol side : String)
    (quantity price : ℚ) :
    (place_limit_order c st symbol side quantity price).state
      = (get_symbol_info c st symbol).state := by
  simp only [place_limit_order]
  repeat' split
  all_goals exact validate_state_eq c st symbol side "LIMIT" quantity (some price)

theorem symbol_calls_no_create (c : Client) (st : BotState) (symbol : String) :
    ((get_symbol_info c st symbol).calls.filter (fun cc => cc.isCreate)) = [] := by
  rcases get_symbol_info_calls_cases c st symbol with h | h <;> rw [h] <;> rfl

theorem symbol_calls_exchinfo_le_one (c : Client) (st : BotState) (symbol : String) :
    (get_symbol_info c st symbol).calls.count .futuresExchangeInfo ≤ 1 := by
  rcases get_symbol_info_calls_cases c st symbol with h | h <;> rw [h] <;> decide

/-- C7: the symbol-info cache memoizes exactly one exchange-info
response per symbol and is unbounded: a cached symbol is served without
any SDK call and without touching the state; a successful fresh lookup
appends exactly the one entry `(symbol, s)`; and no bot operation ever
removes or replaces an existing cache entry. -/
theorem C7_cache_memoization (c : Client) (st : BotState) (symbol k : String)
    (s v : SymbolInfo) :
    (cacheLookup st.symbol_info_cache symbol = some s →
        get_symbol_info c st symbol = ⟨.ok s, [], [], st⟩)
    ∧ (cacheLookup st.symbol_info_cache symbol = none →
        (get_symbol_info c st symbol).ret = .ok s →
        (get_symbol_info c st symbol).state.symbol_info_cache
          = st.symbol_info_cache ++ [(symbol, s)])
    ∧ (cacheLookup st.symbol_info_cache k = some v →
        (∀ sym2, cacheLookup (get_symbol_info c st sym2).state.symbol_info_cache k = some v)
        ∧ cacheLookup (get_account_info c st).state.symbol_info_cache k = some v
        ∧ (∀ asset, cacheLookup (get_balance c st asset).state.symbol_info_cache k = some v)
        ∧ (∀ sym2, cacheLookup (get_current_price c st sym2).state.symbol_info_cache k = some v)
        ∧ (∀ sym2 side otype q p,
            cacheLookup (validate_order_params c st sym2 side otype q p).state.symbol_info_cache k
              = some v)
        ∧ (∀ sym2 side q,
            cacheLookup (place_market_order c st sym2 side q).state.symbol_info_cache k = some v)
        ∧ (∀ sym2 side q p,
            cacheLookup (place_limit_order c st sym2 side q p).state.symbol_info_cache k = some v)
        ∧ (∀ sym2 oid,
            cacheLookup (get_order_status c st sym2 oid).state.symbol_info_cache k = some v)
        ∧ (∀ sym2 oid,
            cacheLookup (cancel_order c st sym2 oid).state.symbol_info_cache k = some v)
        ∧ (∀ osym,
            cacheLookup (get_open_orders c st osym).state.symbol_info_cache k = some v)) := by
  refine ⟨?_, ?_, ?_⟩
  · intro h
    unfold get_symbol_info
    rw [h]
  · intro h hok
    unfold get_symbol_info at hok ⊢
    rw [h] at hok ⊢
    cases hc : c.futures_exchange_info with
    | error e => simp [hc] at hok
    | ok ex =>
        simp only [hc] at hok ⊢
        cases hf : ex.symbols.find? (fun si => si.symbol == symbol) with
        | none => simp [hf] at hok
        | some s2 =>
            simp only [hf] at hok ⊢
            obtain rfl : s2 = s := by simpa using hok
            rfl
  · intro h
    refine ⟨fun sym2 => get_symbol_info_cache_preserved c st sym2 k v h, ?_,
      fun asset => ?_, fun sym2 => ?_, fun sym2 side otype q p => ?_,
      fun sym2 side q => ?_, fun sym2 side q p => ?_,
      fun sym2 oid => ?_, fun sym2 oid => ?_, fun osym => ?_⟩
    · rw [get_account_info_cache]; exact h
    · rw [get_balance_cache]; exact h
    · rw [get_current_price_state]; exact h
    · rw [validate_state_eq]; exact get_symbol_info_cache_preserved c st sym2 k v h
    · rw [place_market_state_eq]; exact get_symbol_info_cache_preserved c st sym2 k v h
    · rw [place_limit_state_eq]; exact get_symbol_info_cache_preserved c st sym2 k v h
    · rw [get_order_status_state]; exact h
    · rw [cancel_order_state]; exact h
    · rw [get_open_orders_state]; exact h

/-- Witness for C7 at concrete inputs: a cache hit is served untouched, a
fresh lookup appends one entry, and a cancel call leaves the cache entry
in place. -/
theorem C7_cache_memoization_witness :
    get_symbol_info sampleClient cachedState "BTCUSDT"
      = ⟨.ok sampleSymbolInfo, [], [], cachedState⟩
    ∧ (get_symbol_info sampleClient emptyState "BTCUSDT").state.symbol_info_cache
      = emptyState.symbol_info_cache ++ [("BTCUSDT", sampleSymbolInfo)]
    ∧ cacheLookup (cancel_order sampleClient cachedState "BTCUSDT" 7).state.symbol_info_cache
        "BTCUSDT" = some sampleSymbolInfo :=
  ⟨(C7_cache_memoization sampleClient cachedState "BTCUSDT" "BTCUSDT"
      sampleSymbolInfo sampleSymbolInfo).1 (by decide),
   (C7_cache_memoization sampleClient emptyState "BTCUSDT" "BTCUSDT"
      sampleSymbolInfo sampleSymbolInfo).2.1 (by decide) (by decide),
   (((C7_cache_memoization sampleClient cachedState "BTCUSDT" "BTCUSDT"
      sampleSymbolInfo sampleSymbolInfo).2.2 (by decide)).2.2.2.2.2.2.2.2.1) "BTCUSDT" 7⟩

/-- C10: `get_symbol_info` is atomic with respect to the cache on
failure: any failing call leaves the state exactly as it was, and a
symbol missing from the exchange's symbol list raises a `ValueError`
saying the symbol was not found. -/
theorem C10_symbol_info_atomic_on_failure (c : Client) (st : BotState) (symbol : String)
    (e : Err) (ex : ExchangeInfo) :
    ((get_symbol_info c st symbol).ret = .error e →
        (get_symbol_info c st symbol).state = st)
    ∧ (cacheLookup st.symbol_info_cache symbol = none →
        c.futures_exchange_info = .ok ex →
        ex.symbols.find? (fun si => si.symbol == symbol) = none →
        (get_symbol_info c st symbol).ret
          = .error (.valueError ("Symbol " ++ symbol ++ " not found"))) := by
  constructor
  · intro h
    unfold get_symbol_info at h ⊢
    cases hcl : cacheLookup st.symbol_info_cache symbol with
    | some s => simp [hcl] at h
    | none =>
        simp only [hcl] at h ⊢
        cases hc : c.futures_exchange_info with
        | error e2 => rfl
        | ok ex2 =>
            simp only [hc] at h ⊢
            cases hf : ex2.symbols.find? (fun si => si.symbol == symbol) with
            | some s2 => simp [hf] at h
            | none => rfl
  · intro h1 h2 h3
    unfold get_symbol_info
    simp only [h1, h2, h3]

/-- Witness for C10 at concrete inputs: a failing exchange-info call
leaves the fresh state unchanged, and an unknown symbol yields the
not-found `ValueError`. -/
theorem C10_symbol_info_atomic_on_failure_witness :
    (get_symbol_info (failClient (.apiError "boom")) emptyState "BTCUSDT").state = emptyState
    ∧ (get_symbol_info sampleClient emptyState "ETHUSDT").ret
      = .error (.valueError ("Symbol " ++ "ETHUSDT" ++ " not found")) :=
  ⟨(C10_symbol_info_atomic_on_failure (failClient (.apiError "boom")) emptyState "BTCUSDT"
      (.apiError "boom") sampleExchangeInfo).1 (by decide),
   (C10_symbol_info_atomic_on_failure sampleClient emptyState "ETHUSDT"
      (.apiError "boom") sampleExchangeInfo).2 (by decide) (by decide) (by decide)⟩

/-- C8: `get_balance` never propagates an error: it always returns a
value; an asset absent from the assets list yields `0.0` (whether the
account info was cached or just fetched); and a failing account fetch is
caught, logged, and turned into `0.0`. -/
theorem C8_get_balance_never_raises (c : Client) (st : BotState) (asset : String)
    (acc : Account) (e : Err) :
    (∃ q, (get_balance c st asset).ret = .ok q)
    ∧ (st.account_info = some acc →
        acc.assets.find? (fun b => b.asset == asset) = none →
        (get_balance c st asset).ret = .ok 0)
    ∧ (st.account_info = none → c.futures_account = .ok acc →
        acc.assets.find? (fun b => b.asset == asset) = none →
        (get_balance c st asset).ret = .ok 0)
    ∧ (st.account_info = none → c.futures_account = .error e →
        (get_balance c st asset).ret = .ok 0
        ∧ hasErrorLog (get_balance c st asset).logs = true) := by
  refine ⟨?_, ?_, ?_, ?_⟩
  · unfold get_balance
    cases h : st.account_info with
    | some acc2 => exact ⟨_, rfl⟩
    | none =>
        simp only []
        cases h2 : (get_account_info c st).ret with
        | ok acc2 => exact ⟨_, rfl⟩
        | error e2 => exact ⟨0, rfl⟩
  · intro h1 h2
    unfold get_balance
    simp only [h1, balanceLookup_eq_zero_of_absent acc.assets asset h2]
  · intro h1 h2 h3
    have hr : (get_account_info c st).ret = .ok acc := by
      unfold get_account_info; rw [h2]
    unfold get_balance
    simp only [h1, hr, balanceLookup_eq_zero_of_absent acc.assets asset h3]
  · intro h1 h2
    have hr : (get_account_info c st).ret = .error e := by
      unfold get_account_info; rw [h2]
    unfold get_balance
    simp only [h1, hr]
    simp [hasErrorLog, logError]

/-- Witness for C8 at concrete inputs: an asset missing from a cached
account, an asset missing from a freshly fetched account, and a failing
fetch all yield `0.0`. -/
theorem C8_get_balance_never_raises_witness :
    (get_balance sampleClient accountState "DOGE").ret = .ok 0
    ∧ (get_balance sampleClient emptyState "DOGE").ret = .ok 0
    ∧ (get_balance (failClient (.apiError "boom")) emptyState "USDT").ret = .ok 0 :=
  ⟨(C8_get_balance_never_raises sampleClient accountState "DOGE" sampleAccount
      (.apiError "boom")).2.1 (by decide) (by decide),
   (C8_get_balance_never_raises sampleClient emptyState "DOGE" sampleAccount
      (.apiError "boom")).2.2.1 (by decide) (by decide) (by decide),
   ((C8_get_balance_never_raises (failClient (.apiError "boom")) emptyState "USDT"
      sampleAccount (.apiError "boom")).2.2.2 (by decide) (by decide)).1⟩

/-- C6: every failing SDK call inside a bot operation is caught, an
error-level record is logged, the same exception is re-raised unchanged,
and the underlying call is issued at most once (no retry): stated for
each of `get_account_info`, `get_symbol_info`, `get_current_price`,
`validate_order_params`, `place_market_order`, `place_limit_order`,
`get_order_status`, `cancel_order` and `get_open_orders`. -/
theorem C6_failures_logged_and_reraised (c : Client) (st : BotState) (e : Err)
    (symbol side order_type : String) (quantity : ℚ) (popt : Option ℚ)
    (price : ℚ) (order_id : ℤ) (osym : Option String) :
    (c.futures_account = .error e →
        (get_account_info c st).ret = .error e
        ∧ hasErrorLog (get_account_info c st).logs = true
        ∧ (get_account_info c st).calls = [.futuresAccount])
    ∧ (cacheLookup st.symbol_info_cache symbol = none →
        c.futures_exchange_info = .error e →
        (get_symbol_info c st symbol).ret = .error e
        ∧ hasErrorLog (get_symbol_info c st symbol).logs = true
        ∧ (get_symbol_info c st symbol).calls = [.futuresExchangeInfo])
    ∧ (c.futures_symbol_ticker symbol = .error e →
        (get_current_price c st symbol).ret = .error e
        ∧ hasErrorLog (get_current_price c st symbol).logs = true
        ∧ (get_current_price c st symbol).calls = [.futuresSymbolTicker symbol])
    ∧ (cacheLookup st.symbol_info_cache symbol = none →
        c.futures_exchange_info = .error e →
        (validate_order_params c st symbol side order_type quantity popt).ret = .error e
        ∧ hasErrorLog (validate_order_params c st symbol side order_type quantity popt).logs
            = true
        ∧ (validate_order_params c st symbol side order_type quantity popt).calls
            = [.futuresExchangeInfo])
    ∧ (exceptOk (validate_order_params c st symbol side "MARKET" quantity none).ret = true →
        c.futures_create_order ⟨symbol, pyUpper side, "MARKET", none, quantity, none⟩
          = .error e →
        (place_market_order c st symbol side quantity).ret = .error e
        ∧ hasErrorLog (place_market_order c st symbol side quantity).logs = true
        ∧ (place_market_order c st symbol side quantity).calls.filter (fun cc => cc.isCreate)
            = [.futuresCreateOrder ⟨symbol, pyUpper side, "MARKET", none, quantity, none⟩]
        ∧ (place_market_order c st symbol side quantity).calls.count .futuresExchangeInfo ≤ 1)
    ∧ (exceptOk (validate_order_params c st symbol side "LIMIT" quantity (some price)).ret
          = true →
        c.futures_create_order ⟨symbol, pyUpper side, "LIMIT", some "GTC", quantity, some price⟩
          = .error e →
        (place_limit_order c st symbol side quantity price).ret = .error e
        ∧ hasErrorLog (place_limit_order c st symbol side quantity price).logs = true
        ∧ (place_limit_order c st symbol side quantity price).calls.filter (fun cc => cc.isCreate)
            = [.futuresCreateOrder
                ⟨symbol, pyUpper side, "LIMIT", some "GTC", quantity, some price⟩]
        ∧ (place_limit_order c st symbol side quantity price).calls.count .futuresExchangeInfo
            ≤ 1)
    ∧ (c.futures_get_order symbol order_id = .error e →
        (get_order_status c st symbol order_id).ret = .error e
        ∧ hasErrorLog (get_order_status c st symbol order_id).logs = true
        ∧ (get_order_status c st symbol order_id).calls = [.futuresGetOrder symbol order_id])
    ∧ (c.futures_cancel_order symbol order_id = .error e →
        (cancel_order c st symbol order_id).ret = .error e
        ∧ hasErrorLog (cancel_order c st symbol order_id).logs = true
        ∧ (cancel_order c st symbol order_id).calls = [.futuresCancelOrder symbol order_id])
    ∧ (c.futures_get_open_orders osym = .error e →
        (get_open_orders c st osym).ret = .error e
        ∧ hasErrorLog (get_open_orders c st osym).logs = true
        ∧ (get_open_orders c st osym).calls = [.futuresGetOpenOrders osym]) := by
  refine ⟨?_, ?_, ?_, ?_, ?_, ?_, ?_, ?_, ?_⟩
  · intro h
    unfold get_account_info
    simp only [h]
    simp [hasErrorLog, logError]
  · intro h1 h2
    unfold get_symbol_info
    simp only [h1, h2]
    simp [hasErrorLog, logError]
  · intro h
    unfold get_current_price
    simp only [h]
    simp [hasErrorLog, logError]
  · intro h1 h2
    have hr : get_symbol_info c st symbol
        = ⟨.error e, [.futuresExchangeInfo],
            [logError ("Error getting symbol info: " ++ e.message)], st⟩ := by
      unfold get_symbol_info
      simp only [h1, h2]
    simp only [validate_order_params, validationFailed, hr]
    simp [hasErrorLog, logError]
  · intro hv hc
    cases hb : (validate_order_params c st symbol side "MARKET" quantity none).ret with
    | error e2 => simp [hb, exceptOk] at hv
    | ok b =>
        simp only [place_market_order, hb, hc]
        refine ⟨by trivial, ?_, ?_, ?_⟩
        · simp [hasErrorLog, List.any_append, logError, logInfo]
        · rw [List.filter_append, validate_calls_eq, symbol_calls_no_create]
          rfl
        · rw [List.count_append, validate_calls_eq]
          have h1 := symbol_calls_exchinfo_le_one c st symbol
          have h2 : ([ClientCall.futuresCreateOrder
              ⟨symbol, pyUpper side, "MARKET", none, quantity, none⟩].count
                ClientCall.futuresExchangeInfo) = 0 := rfl
          omega
  · intro hv hc
    cases hb : (validate_order_params c st symbol side "LIMIT" quantity (some price)).ret with
    | error e2 => simp [hb, exceptOk] at hv
    | ok b =>
        simp only [place_limit_order, hb, hc]
        refine ⟨by trivial, ?_, ?_, ?_⟩
        · simp [hasErrorLog, List.any_append, logError, logInfo]
        · rw [List.filter_append, validate_calls_eq, symbol_calls_no_create]
          rfl
        · rw [List.count_append, validate_calls_eq]
          have h1 := symbol_calls_exchinfo_le_one c st symbol
          have h2 : ([ClientCall.futuresCreateOrder
              ⟨symbol, pyUpper side, "LIMIT", some "GTC", quantity, some price⟩].count
                ClientCall.futuresExchangeInfo) = 0 := rfl
          omega
  · intro h
    unfold get_order_status
    simp only [h]
    simp [hasErrorLog, logError]
  · intro h
    unfold cancel_order
    simp only [h]
    simp [hasErrorLog, logError]
  · intro h
    unfold get_open_orders
    simp only [h]
    simp [hasErrorLog, logError]

/-- Witness for C6 at concrete inputs: each operation re-raises the
failing SDK call's exception. -/
theorem C6_failures_logged_and_reraised_witness :
    (get_account_info (failClient (.apiError "boom")) emptyState).ret
      = .error (.apiError "boom")
    ∧ (get_symbol_info (failClient (.apiError "boom")) emptyState "BTCUSDT").ret
      = .error (.apiError "boom")
    ∧ (get_current_price (failClient (.apiError "boom")) emptyState "BTCUSDT").ret
      = .error (.apiError "boom")
    ∧ (validate_order_params (failClient (.apiError "boom")) emptyState
        "BTCUSDT" "BUY" "MARKET" 1 none).ret = .error (.apiError "boom")
    ∧ (place_market_order createFailClient emptyState "BTCUSDT" "BUY" 1).ret
      = .error (.apiError "rejected")
    ∧ (place_limit_order createFailClient emptyState "BTCUSDT" "BUY" 1 100).ret
      = .error (.apiError "rejected")
    ∧ (get_order_status (failClient (.apiError "boom")) emptyState "BTCUSDT" 7).ret
      = .error (.apiError "boom")
    ∧ (cancel_order (failClient (.apiError "boom")) emptyState "BTCUSDT" 7).ret
      = .error (.apiError "boom")
    ∧ (get_open_orders (failClient (.apiError "boom")) emptyState none).ret
      = .error (.apiError "boom") := by
  have A := C6_failures_logged_and_reraised (failClient (.apiError "boom")) emptyState
    (.apiError "boom") "BTCUSDT" "BUY" "MARKET" 1 none 100 7 none
  have B := C6_failures_logged_and_reraised createFailClient emptyState
    (.apiError "rejected") "BTCUSDT" "BUY" "MARKET" 1 none 100 7 none
  exact ⟨(A.1 (by decide)).1,
    (A.2.1 (by decide) (by decide)).1,
    (A.2.2.1 (by decide)).1,
    (A.2.2.2.1 (by decide) (by decide)).1,
    (B.2.2.2.2.1 (by decide) (by decide)).1,
    (B.2.2.2.2.2.1 (by decide) (by decide)).1,
    (A.2.2.2.2.2.2.1 (by decide)).1,
    (A.2.2.2.2.2.2.2.1 (by decide)).1,
    (A.2.2.2.2.2.2.2.2 (by decide)).1⟩

/-- C4: `validate_order_params` validates symbol status, side and order
type: whenever the symbol's status is not TRADING, or the upper-cased
side is not BUY/SELL, or the upper-cased order type is not MARKET/LIMIT,
a `ValueError` is raised; and it returns `True` only when all three
checks pass. -/
theorem C4_status_side_type_checks (c : Client) (st : BotState)
    (symbol side order_type : String) (quantity : ℚ) (price : Option ℚ)
    (info : SymbolInfo)
    (hsym : (get_symbol_info c st symbol).ret = .ok info) :
    ((info.status ≠ "TRADING" ∨ pyUpper side ∉ (["BUY", "SELL"] : List String)
        ∨ pyUpper order_type ∉ (["MARKET", "LIMIT"] : List String)) →
      ∃ m, (validate_order_params c st symbol side order_type quantity price).ret
          = .error (.valueError m))
    ∧ ((validate_order_params c st symbol side order_type quantity price).ret = .ok true →
        info.status = "TRADING" ∧ pyUpper side ∈ (["BUY", "SELL"] : List String)
        ∧ pyUpper order_type ∈ (["MARKET", "LIMIT"] : List String)) := by
  constructor
  · intro hbad
    simp only [validate_order_params, validationFailed, hsym]
    by_cases h1 : info.status ≠ "TRADING"
    · rw [if_pos h1]; exact ⟨_, rfl⟩
    · rw [if_neg h1]
      by_cases h2 : pyUpper side ∉ (["BUY", "SELL"] : List String)
      · rw [if_pos h2]; exact ⟨_, rfl⟩
      · rw [if_neg h2]
        by_cases h3 : pyUpper order_type ∉ (["MARKET", "LIMIT"] : List String)
        · rw [if_pos h3]; exact ⟨_, rfl⟩
        · rw [if_neg h3]
          rcases hbad with hb | hb | hb
          · exact absurd hb h1
          · exact absurd hb h2
          · exact absurd hb h3
  · intro hok
    simp only [validate_order_params, validationFailed, hsym] at hok
    by_cases h1 : info.status ≠ "TRADING"
    · rw [if_pos h1] at hok; simp at hok
    · rw [if_neg h1] at hok
      by_cases h2 : pyUpper side ∉ (["BUY", "SELL"] : List String)
      · rw [if_pos h2] at hok; simp at hok
      · rw [if_neg h2] at hok
        by_cases h3 : pyUpper order_type ∉ (["MARKET", "LIMIT"] : List String)
        · rw [if_pos h3] at hok; simp at hok
        · exact ⟨not_not.mp h1, not_not.mp h2, not_not.mp h3⟩

/-- Witness for C4 at concrete inputs: an invalid side is rejected with
a `ValueError`, and a fully valid parameter set passes all three checks. -/
theorem C4_status_side_type_checks_witness :
    (∃ m, (validate_order_params sampleClient emptyState "BTCUSDT" "HOLD" "MARKET" 1 none).ret
        = .error (.valueError m))
    ∧ (sampleSymbolInfo.status = "TRADING"
        ∧ pyUpper "BUY" ∈ (["BUY", "SELL"] : List String)
        ∧ pyUpper "MARKET" ∈ (["MARKET", "LIMIT"] : List String)) :=
  ⟨(C4_status_side_type_checks sampleClient emptyState "BTCUSDT" "HOLD" "MARKET" 1 none
      sampleSymbolInfo (by decide)).1 (by decide),
   (C4_status_side_type_checks sampleClient emptyState "BTCUSDT" "BUY" "MARKET" 1 none
      sampleSymbolInfo (by decide)).2 (by decide)⟩

/-- C2: the lot-size min/max bounds are enforced: with the symbol's
LOT_SIZE filter present, a quantity strictly below `minQty` or strictly
above `maxQty` makes `validate_order_params` raise a `ValueError` after
logging an error record, and it returns `True` only when the quantity
lies within `[minQty, maxQty]`. -/
theorem C2_lot_size_bounds_enforced (c : Client) (st : BotState)
    (symbol side order_type : String) (quantity : ℚ) (price : Option ℚ)
    (info : SymbolInfo) (mn mx stp : ℚ)
    (hsym : (get_symbol_info c st symbol).ret = .ok info)
    (hlot : findLotSize info.filters = some (mn, mx, stp)) :
    ((quantity < mn ∨ quantity > mx) →
        (∃ m, (validate_order_params c st symbol side order_type quantity price).ret
            = .error (.valueError m))
        ∧ hasErrorLog (validate_order_params c st symbol side order_type quantity price).logs
            = true)
    ∧ ((validate_order_params c st symbol side order_type quantity price).ret = .ok true →
        mn ≤ quantity ∧ quantity ≤ mx) := by
  constructor
  · intro hq
    simp only [validate_order_params, validationFailed, hsym]
    by_cases h1 : info.status ≠ "TRADING"
    · rw [if_pos h1]; exact ⟨⟨_, rfl⟩, by simp [hasErrorLog, List.any_append, logError]⟩
    · rw [if_neg h1]
      by_cases h2 : pyUpper side ∉ (["BUY", "SELL"] : List String)
      · rw [if_pos h2]; exact ⟨⟨_, rfl⟩, by simp [hasErrorLog, List.any_append, logError]⟩
      · rw [if_neg h2]
        by_cases h3 : pyUpper order_type ∉ (["MARKET", "LIMIT"] : List String)
        · rw [if_pos h3]; exact ⟨⟨_, rfl⟩, by simp [hasErrorLog, List.any_append, logError]⟩
        · rw [if_neg h3]
          simp only [hlot, if_pos hq]
          exact ⟨⟨_, rfl⟩, by simp [hasErrorLog, List.any_append, logError]⟩
  · intro hok
    by_cases hq : quantity < mn ∨ quantity > mx
    · exfalso
      simp only [validate_order_params, validationFailed, hsym] at hok
      by_cases h1 : info.status ≠ "TRADING"
      · rw [if_pos h1] at hok; simp at hok
      · rw [if_neg h1] at hok
        by_cases h2 : pyUpper side ∉ (["BUY", "SELL"] : List String)
        · rw [if_pos h2] at hok; simp at hok
        · rw [if_neg h2] at hok
          by_cases h3 : pyUpper order_type ∉ (["MARKET", "LIMIT"] : List String)
          · rw [if_pos h3] at hok; simp at hok
          · rw [if_neg h3] at hok
            simp only [hlot, if_pos hq] at hok
            simp at hok
    · push_neg at hq
      exact hq

/-- Witness for C2 at concrete inputs: a quantity above `maxQty` is
rejected with a `ValueError` and an error log record. -/
theorem C2_lot_size_bounds_enforced_witness :
    (∃ m, (validate_order_params sampleClient emptyState "BTCUSDT" "BUY" "MARKET" 1000 none).ret
        = .error (.valueError m))
    ∧ hasErrorLog
        (validate_order_params sampleClient emptyState "BTCUSDT" "BUY" "MARKET" 1000 none).logs
      = true :=
  (C2_lot_size_bounds_enforced sampleClient emptyState "BTCUSDT" "BUY" "MARKET" 1000 none
      sampleSymbolInfo (1 / 10) 100 (1 / 10) (by decide) (by decide)).1 (by decide)

/-- C9: limit-order price validation is skipped for falsy prices: a
call with price `some 0` behaves exactly like a call with price `none`
(no price-filter check at all), so validation can return `True` for a
LIMIT order with price 0 even though 0 is below the symbol's positive
`minPrice`. -/
theorem C9_falsy_price_skips_price_filter :
    (∀ (c : Client) (st : BotState) (symbol side order_type : String) (quantity : ℚ),
        validate_order_params c st symbol side order_type quantity (some 0)
          = validate_order_params c st symbol side order_type quantity none)
    ∧ (validate_order_params sampleClient emptyState "BTCUSDT" "BUY" "LIMIT" (1 / 2)
        (some 0)).ret = .ok true
    ∧ findPriceFilter sampleSymbolInfo.filters = some (1 / 100, 1000000, 1 / 100)
    ∧ (0 : ℚ) < 1 / 100 := by
  refine ⟨?_, by decide, by decide, by decide⟩
  intro c st symbol side order_type quantity
  simp only [validate_order_params, validationFailed]
  cases hr : (get_symbol_info c st symbol).ret with
  | error e => rfl
  | ok info =>
      simp only []
      have hcond : (pyUpper order_type = "LIMIT" ∧ (0 : ℚ) ≠ 0) = False := by simp
      simp only [hcond, if_false]

/-- C1: the step-size component of the lot-size filter is not enforced:
with stepSize 0.1, the quantity 0.15 is not an integer multiple of the
step (0.15 / 0.1 has denominator 2, not 1), the code logs its
quantity-adjusted warning, yet validation accepts the unmodified
quantity and returns True. -/
theorem C1_step_size_not_enforced :
    (validate_order_params sampleClient emptyState "BTCUSDT" "BUY" "MARKET" (15 / 100)
        none).ret = .ok true
    ∧ (validate_order_params sampleClient emptyState "BTCUSDT" "BUY" "MARKET" (15 / 100)
        none).logs.any (fun l => l.level == .warning) = true
    ∧ ((15 / 100 : ℚ) / (1 / 10)).den ≠ 1 := by decide

/-- C3 counterexample: with the PRICE_FILTER minPrice equal to 0.01, a
LIMIT order carrying the explicit price argument 0 — strictly below
minPrice — is not rejected: no ValueError is raised and validation
returns True. -/
theorem C3_price_zero_accepted_counterexample :
    (validate_order_params sampleClient emptyState "BTCUSDT" "BUY" "LIMIT" (1 / 2)
        (some 0)).ret = .ok true
    ∧ findPriceFilter sampleSymbolInfo.filters = some (1 / 100, 1000000, 1 / 100)
    ∧ ((0 : ℚ) < 1 / 100 ∨ (0 : ℚ) > 1000000) := by decide

/-- C3 (amended): the price filter is enforced for LIMIT orders with a
nonzero price argument: with the symbol's filters present, a nonzero
price strictly below minPrice or strictly above maxPrice makes
validation raise a ValueError, and validation does not return True. -/
theorem C3_price_filter_enforced_nonzero (c : Client) (st : BotState)
    (symbol side order_type : String) (quantity p : ℚ) (info : SymbolInfo)
    (mn mx stp pmn pmx ptick : ℚ)
    (hsym : (get_symbol_info c st symbol).ret = .ok info)
    (hlot : findLotSize info.filters = some (mn, mx, stp))
    (hpf : findPriceFilter info.filters = some (pmn, pmx, ptick))
    (hlim : pyUpper order_type = "LIMIT") (hp : p ≠ 0)
    (hout : p < pmn ∨ p > pmx) :
    (∃ m, (validate_order_params c st symbol side order_type quantity (some p)).ret
        = .error (.valueError m))
    ∧ (validate_order_params c st symbol side order_type quantity (some p)).ret
        ≠ .ok true := by
  simp only [validate_order_params, validationFailed, hsym]
  by_cases h1 : info.status ≠ "TRADING"
  · rw [if_pos h1]; exact ⟨⟨_, rfl⟩, by simp⟩
  · rw [if_neg h1]
    by_cases h2 : pyUpper side ∉ (["BUY", "SELL"] : List String)
    · rw [if_pos h2]; exact ⟨⟨_, rfl⟩, by simp⟩
    · rw [if_neg h2]
      by_cases h3 : pyUpper order_type ∉ (["MARKET", "LIMIT"] : List String)
      · rw [if_pos h3]; exact ⟨⟨_, rfl⟩, by simp⟩
      · rw [if_neg h3]
        simp only [hlot]
        by_cases hq : quantity < mn ∨ quantity > mx
        · rw [if_pos hq]; exact ⟨⟨_, rfl⟩, by simp⟩
        · rw [if_neg hq]
          rw [if_pos (⟨hlim, hp⟩ : pyUpper order_type = "LIMIT" ∧ p ≠ 0)]
          simp only [hpf]
          rw [if_pos hout]
          exact ⟨⟨_, rfl⟩, by simp⟩

/-- Witness for the amended C3 at concrete inputs: a LIMIT order with
nonzero price 0.001, below minPrice 0.01, is rejected. -/
theorem C3_price_filter_enforced_nonzero_witness :
    (∃ m, (validate_order_params sampleClient emptyState "BTCUSDT" "BUY" "LIMIT" (1 / 2)
        (some (1 / 1000))).ret = .error (.valueError m))
    ∧ (validate_order_params sampleClient emptyState "BTCUSDT" "BUY" "LIMIT" (1 / 2)
        (some (1 / 1000))).ret ≠ .ok true :=
  C3_price_filter_enforced_nonzero sampleClient emptyState "BTCUSDT" "BUY" "LIMIT"
    (1 / 2) (1 / 1000) sampleSymbolInfo (1 / 10) 100 (1 / 10) (1 / 100) 1000000 (1 / 100)
    (by decide) (by decide) (by decide) (by decide) (by decide) (by decide)

/-- C5: order parameters are forwarded unchanged: when validation
succeeds, exactly one create-order call is issued, carrying the given
symbol and quantity unchanged, the side upper-cased, type MARKET
(respectively type LIMIT with the given price unchanged and timeInForce
GTC), and a successful exchange response is returned unchanged. -/
theorem C5_params_forwarded (c : Client) (st : BotState) (symbol side : String)
    (quantity price : ℚ) (o : OrderResponse) :
    (exceptOk (validate_order_params c st symbol side "MARKET" quantity none).ret = true →
        (place_market_order c st symbol side quantity).calls.filter (fun cc => cc.isCreate)
          = [.futuresCreateOrder ⟨symbol, pyUpper side, "MARKET", none, quantity, none⟩]
        ∧ (c.futures_create_order ⟨symbol, pyUpper side, "MARKET", none, quantity, none⟩
              = .ok o →
            (place_market_order c st symbol side quantity).ret = .ok o))
    ∧ (exceptOk (validate_order_params c st symbol side "LIMIT" quantity (some price)).ret
          = true →
        (place_limit_order c st symbol side quantity price).calls.filter
            (fun cc => cc.isCreate)
          = [.futuresCreateOrder
              ⟨symbol, pyUpper side, "LIMIT", some "GTC", quantity, some price⟩]
        ∧ (c.futures_create_order
              ⟨symbol, pyUpper side, "LIMIT", some "GTC", quantity, some price⟩ = .ok o →
            (place_limit_order c st symbol side quantity price).ret = .ok o)) := by
  constructor
  · intro hv
    cases hb : (validate_order_params c st symbol side "MARKET" quantity none).ret with
    | error e2 => simp [hb, exceptOk] at hv
    | ok b =>
        constructor
        · simp only [place_market_order, hb]
          cases hc : c.futures_create_order
              ⟨symbol, pyUpper side, "MARKET", none, quantity, none⟩ <;>
            simp only [hc] <;>
            (rw [List.filter_append, validate_calls_eq, symbol_calls_no_create]; rfl)
        · intro hc
          simp [place_market_order, hb, hc]
  · intro hv
    cases hb : (validate_order_params c st symbol side "LIMIT" quantity (some price)).ret with
    | error e2 => simp [hb, exceptOk] at hv
    | ok b =>
        constructor
        · simp only [place_limit_order, hb]
          cases hc : c.futures_create_order
              ⟨symbol, pyUpper side, "LIMIT", some "GTC", quantity, some price⟩ <;>
            simp only [hc] <;>
            (rw [List.filter_append, validate_calls_eq, symbol_calls_no_create]; rfl)
        · intro hc
          simp [place_limit_order, hb, hc]

/-- Witness for C5 at concrete inputs: a market and a limit order issue
exactly one create call each, with the upper-cased side and unchanged
quantity and price, and return the exchange's response unchanged. -/
theorem C5_params_forwarded_witness :
    ((place_market_order sampleClient emptyState "BTCUSDT" "buy" (1 / 2)).calls.filter
        (fun cc => cc.isCreate)
      = [.futuresCreateOrder ⟨"BTCUSDT", pyUpper "buy", "MARKET", none, 1 / 2, none⟩]
    ∧ (place_market_order sampleClient emptyState "BTCUSDT" "buy" (1 / 2)).ret
      = .ok sampleOrder)
    ∧ ((place_limit_order sampleClient emptyState "BTCUSDT" "buy" (1 / 2) 100).calls.filter
        (fun cc => cc.isCreate)
      = [.futuresCreateOrder ⟨"BTCUSDT", pyUpper "buy", "LIMIT", some "GTC", 1 / 2, some 100⟩]
    ∧ (place_limit_order sampleClient emptyState "BTCUSDT" "buy" (1 / 2) 100).ret
      = .ok sampleOrder) := by
  have H := C5_params_forwarded sampleClient emptyState "BTCUSDT" "buy" (1 / 2) 100 sampleOrder
  have h1 := H.1 (by decide)
  have h2 := H.2 (by decide)
  exact ⟨⟨h1.1, h1.2 (by decide)⟩, ⟨h2.1, h2.2 (by decide)⟩⟩


end TradingBot
